import Mathlib

/-!
Shallow embedding of the issue/return reconciliation engine of the lab
materials application, translated from `src/models.py` (classes
`TransactionModel` and `ComponentModel`).

Modelling conventions:
* MySQL rows become Lean structures; nullable columns become `Option` fields.
* Python integers are `Int`; `int(x or 0)` on a nullable integer is `Option.getD 0`
  (both `None` and `0` are falsy and yield `0`).
* Timestamp columns (`issue_date`, `date`, `last_updated`) are omitted: no claim
  mentions them.  `ORDER BY issue_date DESC LIMIT 1` is modelled by keeping the
  transaction list newest-first (`create_issue` prepends freshly inserted rows)
  and taking the first match with `List.find?`.
* Each engine call receives the component row freshly fetched from the database,
  so the state carries the component row directly; an SQL `UPDATE ... WHERE id`
  on the transaction list replaces the row with the matching id.
* A Python `raise ValueError(...)` happens before any SQL write in the source,
  so it is modelled by an `Except.error` result that carries no new state:
  an error leaves the database exactly as it was.
-/

/-- One row of the `components` table (columns used by the engine, plus a few
carried fields to express that enrichment and the engine leave them alone). -/
structure ComponentRow where
  id : Nat
  name : String
  quantity : Option Int
  min_stock_level : Option Int
  unit : String
  description : String
  deriving DecidableEq, Repr

/-- One row of the `transactions` table (timestamps omitted, see module header). -/
structure TransactionRow where
  id : Nat
  component_id : Nat
  lab_id : Option Int
  campus : Option String
  person_name : String
  purpose : String
  qty_issued : Int
  qty_returned : Int
  pending_qty : Int
  status : String
  quantity_before : Int
  quantity_after : Int
  transaction_quantity : Int
  last_action : String
  notes : Option String
  deriving DecidableEq, Repr

/-- The database state seen by one engine call: the component row the caller
fetched, the transaction rows (newest first), and the next fresh row id. -/
structure EngineState where
  component : ComponentRow
  transactions : List TransactionRow
  nextId : Nat
  deriving DecidableEq, Repr

/-- Python `campus or None` (models.py lines 471, 524, 640): an empty string is
falsy, so it collapses to absent before any use. -/
def strOrNone : Option String → Option String
  | none => none
  | some s => if s = "" then none else some s

/-- Python `int(lab_id) if lab_id else None` (models.py lines 470, 523, 639):
a falsy lab id (absent, or the integer 0) becomes absent. -/
def labOrNone : Option Int → Option Int
  | none => none
  | some v => if v = 0 then none else some v

/-- Python `int(component.get("quantity", 0) or 0)` (models.py lines 515, 638):
`None` is falsy and reads as 0; any integer passes through. -/
def intOrZero (o : Option Int) : Int := o.getD 0

/-- Python `notes or existing.get("notes", "")` (models.py line 567): the
caller's notes win when truthy (present and non-empty), otherwise the stored
value is written back unchanged. -/
def notesOrExisting (caller stored : Option String) : Option String :=
  match caller with
  | none => stored
  | some s => if s = "" then stored else some s

/-- The `WHERE` clause of `_find_open_transaction` (models.py lines 473-484).
The SQL pattern `(col = %s OR (col IS NULL AND %s IS NULL))` under three-valued
logic is exactly equality of optional values. -/
def matches_context (comp_id : Nat) (lab_val : Option Int) (campus_val : Option String)
    (person_name purpose : String) (t : TransactionRow) : Bool :=
  t.component_id == comp_id && t.lab_id == lab_val && t.campus == campus_val &&
  t.person_name == person_name && t.purpose == purpose &&
  (t.status == "Issued" || t.status == "Partially Returned")

/-- `TransactionModel._find_open_transaction` (models.py lines 466-497): both
`lab_id` and `campus` are normalised with Python truthiness before matching;
the first (newest) matching open row is returned. -/
def find_open_transaction (s : EngineState) (lab_id : Option Int) (campus : Option String)
    (person_name purpose : String) : Option TransactionRow :=
  s.transactions.find?
    (matches_context s.component.id (labOrNone lab_id) (strOrNone campus) person_name purpose)

/-- The engine's recoverable errors: the `ValueError`s raised in models.py,
plus the `InvalidQuantity` case of the specification's error taxonomy (raised,
if at all, by the web layer in app.py before the engine is reached). -/
inductive LedgerError where
  | invalidQuantity
  | insufficientStock (available : Int)
  | noMatchingTransaction
  | nothingPending
  | exceedsPending (pending : Int)
  deriving DecidableEq, Repr

/-- SQL `UPDATE transactions SET ... WHERE id = %s`: replace the row whose id
matches with the updated row. -/
def update_row (ts : List TransactionRow) (i : Nat) (r : TransactionRow) : List TransactionRow :=
  ts.map fun t => if t.id = i then r else t

/-- `TransactionModel.create_issue` (models.py lines 499-620).  Returns the
updated database state together with the transaction row that was written.
The stock check is the only validation present; there is no check that `qty`
is positive.  Both branches end by writing `component.quantity = quantity_after`. -/
def create_issue (s : EngineState) (lab_id : Option Int) (campus : Option String)
    (person_name : String) (qty : Int) (purpose : String) (notes : Option String) :
    Except LedgerError (EngineState × TransactionRow) :=
  let current_stock := intOrZero s.component.quantity
  if qty > current_stock then
    .error (.insufficientStock current_stock)
  else
    let quantity_after := current_stock - qty
    let lab_oid := labOrNone lab_id
    let campus' := strOrNone campus
    match find_open_transaction s lab_id campus' person_name purpose with
    | some existing =>
      let new_issued := existing.qty_issued + qty
      let qty_returned := existing.qty_returned
      let pending := new_issued - qty_returned
      let status :=
        if qty_returned = 0 then "Issued"
        else if pending ≤ 0 then "Completed"
        else "Partially Returned"
      let updated : TransactionRow :=
        { existing with
          qty_issued := new_issued
          pending_qty := pending
          status := status
          quantity_before := current_stock
          quantity_after := quantity_after
          last_action := "issue"
          transaction_quantity := qty
          notes := notesOrExisting notes existing.notes }
      .ok ({ s with
              transactions := update_row s.transactions existing.id updated
              component := { s.component with quantity := some quantity_after } },
            updated)
    | none =>
      let row : TransactionRow :=
        { id := s.nextId
          component_id := s.component.id
          lab_id := lab_oid
          campus := campus'
          person_name := person_name
          purpose := purpose
          qty_issued := qty
          qty_returned := 0
          pending_qty := qty
          status := "Issued"
          quantity_before := current_stock
          quantity_after := quantity_after
          transaction_quantity := qty
          last_action := "issue"
          notes := notes }
      .ok ({ component := { s.component with quantity := some quantity_after }
             transactions := row :: s.transactions
             nextId := s.nextId + 1 },
            row)

/-- `TransactionModel.add_return` (models.py lines 622-715).  The three
`ValueError`s are raised before any SQL write, so an error result leaves the
state untouched, exactly as in the source. -/
def add_return (s : EngineState) (lab_id : Option Int) (campus : Option String)
    (person_name : String) (qty : Int) (purpose : String) (notes : Option String) :
    Except LedgerError (EngineState × TransactionRow) :=
  let current_stock := intOrZero s.component.quantity
  let campus' := strOrNone campus
  match find_open_transaction s lab_id campus' person_name purpose with
  | none => .error .noMatchingTransaction
  | some existing =>
    let qty_issued := existing.qty_issued
    let qty_returned := existing.qty_returned
    let pending := qty_issued - qty_returned
    if pending ≤ 0 then .error .nothingPending
    else if qty > pending then .error (.exceedsPending pending)
    else
      let new_returned := qty_returned + qty
      let new_pending := qty_issued - new_returned
      let status := if new_pending ≤ 0 then "Completed" else "Partially Returned"
      let quantity_after := current_stock + qty
      let combined_notes :=
        (existing.notes.getD "") ++
          (match notes with
           | none => ""
           | some n => if n = "" then "" else "\nReturn: " ++ n)
      let updated : TransactionRow :=
        { existing with
          qty_returned := new_returned
          pending_qty := new_pending
          status := status
          quantity_before := current_stock
          quantity_after := quantity_after
          last_action := "return"
          transaction_quantity := qty
          notes := some combined_notes }
      .ok ({ s with
              transactions := update_row s.transactions existing.id updated
              component := { s.component with quantity := some quantity_after } },
            updated)

/-- One engine call with its request data. -/
inductive Op where
  | issue (lab_id : Option Int) (campus : Option String) (person_name : String)
      (qty : Int) (purpose : String) (notes : Option String)
  | ret (lab_id : Option Int) (campus : Option String) (person_name : String)
      (qty : Int) (purpose : String) (notes : Option String)
  deriving DecidableEq, Repr

/-- Dispatch one call to the engine. -/
def applyOp (s : EngineState) : Op → Except LedgerError (EngineState × TransactionRow)
  | .issue lab campus person qty purpose notes =>
      create_issue s lab campus person qty purpose notes
  | .ret lab campus person qty purpose notes =>
      add_return s lab campus person qty purpose notes

/-- Run a sequence of calls; the run succeeds only if every call succeeds. -/
def runOps (s : EngineState) : List Op → Except LedgerError EngineState
  | [] => .ok s
  | op :: rest =>
    match applyOp s op with
    | .error e => .error e
    | .ok (s', _) => runOps s' rest

/-- Quantity issued by one call (0 for a return). -/
def issuedQty : Op → Int
  | .issue _ _ _ qty _ _ => qty
  | .ret _ _ _ _ _ _ => 0

/-- Quantity returned by one call (0 for an issue). -/
def returnedQty : Op → Int
  | .issue _ _ _ _ _ _ => 0
  | .ret _ _ _ qty _ _ => qty

/-- The request quantity of a call, issue or return. -/
def opQty : Op → Int
  | .issue _ _ _ qty _ _ => qty
  | .ret _ _ _ qty _ _ => qty

/-- Total quantity issued by a sequence of calls. -/
def sumIssued (ops : List Op) : Int := (ops.map issuedQty).sum

/-- Total quantity returned by a sequence of calls. -/
def sumReturned (ops : List Op) : Int := (ops.map returnedQty).sum

/-- A component row together with the presentation fields that
`enrich_with_status` adds. -/
structure EnrichedComponent where
  base : ComponentRow
  stock_state : String
  stock_state_class : String
  status_label : String
  status_detail : String
  deriving DecidableEq, Repr

/-- `ComponentModel.enrich_with_status` (models.py lines 354-376), for one
component: missing or `None` quantity and threshold read as 0; the three
states are decided in source order; `status_label` is set to the same string
as `stock_state`; no stored component field is touched. -/
def enrich_with_status (c : ComponentRow) : EnrichedComponent :=
  let qty := intOrZero c.quantity
  let min_stock := intOrZero c.min_stock_level
  let pair :=
    if qty ≤ 0 then ("Out of Stock", "out")
    else if qty ≤ min_stock then ("Low Stock", "low")
    else ("In Stock", "instock")
  { base := c
    stock_state := pair.1
    stock_state_class := pair.2
    status_label := pair.1
    status_detail := "" }

/-- The whole-list form of `enrich_with_status` (the source loops over the list). -/
def enrich_all (cs : List ComponentRow) : List EnrichedComponent :=
  cs.map enrich_with_status

/-- Fallback row for extracting concrete results (never reached in witnesses). -/
def dummyRow : TransactionRow :=
  { id := 0, component_id := 0, lab_id := none, campus := none, person_name := "",
    purpose := "", qty_issued := 0, qty_returned := 0, pending_qty := 0,
    status := "Issued", quantity_before := 0, quantity_after := 0,
    transaction_quantity := 0, last_action := "issue", notes := none }

/-- A concrete component used by the witnesses: 20 in stock, threshold 2. -/
def wComp : ComponentRow :=
  { id := 1, name := "resistor", quantity := some 20, min_stock_level := some 2,
    unit := "pcs", description := "demo stock" }

/-- A concrete starting state with no transactions. -/
def wState : EngineState := { component := wComp, transactions := [], nextId := 1 }

/-- The spec's partial-cycle example: issue 10, return 4, issue 5. -/
def wOps : List Op :=
  [Op.issue (some 3) none "Alice" 10 "project" none,
   Op.ret (some 3) none "Alice" 4 "project" none,
   Op.issue (some 3) none "Alice" 5 "project" none]

/-- The state after running `wOps` from `wState`. -/
def wFinal : EngineState := (runOps wState wOps).toOption.getD wState

/-- A concrete issue call for the C2 witness. -/
def c2op : Op := Op.issue none (some "Main") "Bob" 7 "lab work" (some "bench")

/-- The state/row pair produced by `c2op` on `wState`. -/
def c2pair : EngineState × TransactionRow :=
  (applyOp wState c2op).toOption.getD (wState, dummyRow)

/-- A row with nothing pending (issued 0, returned 0) for the C3 witness. -/
def c3bRow : TransactionRow :=
  { id := 1, component_id := 1, lab_id := none, campus := none, person_name := "Alice",
    purpose := "project", qty_issued := 0, qty_returned := 0, pending_qty := 0,
    status := "Issued", quantity_before := 20, quantity_after := 20,
    transaction_quantity := 0, last_action := "issue", notes := none }

/-- A state holding only `c3bRow`. -/
def c3bState : EngineState := { component := wComp, transactions := [c3bRow], nextId := 2 }

/-- The spec's over-return example row: issued 10, returned 3, pending 7. -/
def c3cRow : TransactionRow :=
  { id := 1, component_id := 1, lab_id := none, campus := none, person_name := "Alice",
    purpose := "project", qty_issued := 10, qty_returned := 3, pending_qty := 7,
    status := "Partially Returned", quantity_before := 20, quantity_after := 10,
    transaction_quantity := 10, last_action := "issue", notes := none }

/-- A state holding only `c3cRow`. -/
def c3cState : EngineState := { component := wComp, transactions := [c3cRow], nextId := 2 }

/-- The spec example component for C4: quantity 5. -/
def c4Comp : ComponentRow :=
  { id := 2, name := "led", quantity := some 5, min_stock_level := some 1,
    unit := "pcs", description := "" }

/-- The C4 witness state. -/
def c4State : EngineState := { component := c4Comp, transactions := [], nextId := 1 }

/-- Whether an engine result is a success. -/
def isSuccess (r : Except LedgerError (EngineState × TransactionRow)) : Bool :=
  match r with
  | .ok _ => true
  | .error _ => false

/-- An open entry whose campus is absent (NULL), for the C6 counterexample. -/
def c6Row : TransactionRow :=
  { id := 1, component_id := 1, lab_id := none, campus := none, person_name := "Alice",
    purpose := "project", qty_issued := 3, qty_returned := 0, pending_qty := 3,
    status := "Issued", quantity_before := 20, quantity_after := 17,
    transaction_quantity := 3, last_action := "issue", notes := none }

/-- A state holding only `c6Row`. -/
def c6State : EngineState := { component := wComp, transactions := [c6Row], nextId := 2 }

/-- The spec's partial-cycle row for the C7 witness: issued 10, returned 4. -/
def c7Row : TransactionRow :=
  { id := 4, component_id := 1, lab_id := some 3, campus := none, person_name := "Alice",
    purpose := "project", qty_issued := 10, qty_returned := 4, pending_qty := 6,
    status := "Partially Returned", quantity_before := 10, quantity_after := 14,
    transaction_quantity := 4, last_action := "return", notes := none }

/-- A state holding only `c7Row`, stock 20. -/
def c7State : EngineState := { component := wComp, transactions := [c7Row], nextId := 5 }

/-- An open entry with stored notes "orig", for the C8 witness. -/
def c8Row : TransactionRow :=
  { id := 9, component_id := 1, lab_id := none, campus := none, person_name := "Ben",
    purpose := "course", qty_issued := 6, qty_returned := 1, pending_qty := 5,
    status := "Partially Returned", quantity_before := 20, quantity_after := 14,
    transaction_quantity := 6, last_action := "issue", notes := some "orig" }

/-- A state holding only `c8Row`. -/
def c8State : EngineState := { component := wComp, transactions := [c8Row], nextId := 10 }

/-- Result of an issue with fresh notes against `c8Row`. -/
def c8IssuePair : EngineState × TransactionRow :=
  (create_issue c8State none none "Ben" 2 "course" (some "new note")).toOption.getD
    (c8State, dummyRow)

/-- Result of a return with notes against `c8Row`. -/
def c8ReturnPair : EngineState × TransactionRow :=
  (add_return c8State none none "Ben" 2 "course" (some "back")).toOption.getD
    (c8State, dummyRow)

/-- The concrete call for the C9 witness: return 6 against `c7Row`. -/
def c9Op : Op := Op.ret (some 3) none "Alice" 6 "project" none

/-- The state/row pair produced by `c9Op` on `c7State`. -/
def c9Pair : EngineState × TransactionRow :=
  (applyOp c7State c9Op).toOption.getD (wState, dummyRow)

/-- A low-stock component for the C10 witness: quantity 2, threshold 5. -/
def c10Comp : ComponentRow :=
  { id := 3, name := "wire", quantity := some 2, min_stock_level := some 5,
    unit := "m", description := "" }

/-- A successful issue writes back stock lowered by exactly `qty`
(models.py lines 522 and 611-620, reached from both branches). -/
lemma create_issue_stock (s : EngineState) (lab : Option Int) (campus : Option String)
    (person : String) (qty : Int) (purpose : String) (notes : Option String)
    (s' : EngineState) (r : TransactionRow)
    (h : create_issue s lab campus person qty purpose notes = .ok (s', r)) :
    s'.component.quantity = some (intOrZero s.component.quantity - qty) := by
  simp only [create_issue] at h
  split at h
  · exact absurd h (by simp)
  · split at h
    · simp only [Except.ok.injEq, Prod.mk.injEq] at h
      obtain ⟨hs, -⟩ := h
      subst hs
      rfl
    · simp only [Except.ok.injEq, Prod.mk.injEq] at h
      obtain ⟨hs, -⟩ := h
      subst hs
      rfl

/-- A successful return writes back stock raised by exactly `qty`
(models.py lines 668 and 706-715). -/
lemma add_return_stock (s : EngineState) (lab : Option Int) (campus : Option String)
    (person : String) (qty : Int) (purpose : String) (notes : Option String)
    (s' : EngineState) (r : TransactionRow)
    (h : add_return s lab campus person qty purpose notes = .ok (s', r)) :
    s'.component.quantity = some (intOrZero s.component.quantity + qty) := by
  simp only [add_return] at h
  split at h
  · exact absurd h (by simp)
  · split at h
    · exact absurd h (by simp)
    · split at h
      · exact absurd h (by simp)
      · simp only [Except.ok.injEq, Prod.mk.injEq] at h
        obtain ⟨hs, -⟩ := h
        subst hs
        rfl

/-- Stock delta of one successful engine call. -/
lemma applyOp_stock (s : EngineState) (op : Op) (s' : EngineState) (r : TransactionRow)
    (h : applyOp s op = .ok (s', r)) :
    s'.component.quantity =
      some (intOrZero s.component.quantity - issuedQty op + returnedQty op) := by
  cases op with
  | issue lab campus person qty purpose notes =>
    have := create_issue_stock s lab campus person qty purpose notes s' r h
    simpa [issuedQty, returnedQty] using this
  | ret lab campus person qty purpose notes =>
    have := add_return_stock s lab campus person qty purpose notes s' r h
    simp only [issuedQty, returnedQty] at *
    rw [this]
    congr 1
    omega

/-- C1.  Stock conservation: starting from stock `q0`, after any sequence of
successful `Issue` and `Return` calls against the component, the stored
quantity equals `q0` minus all issued quantities plus all returned quantities
(each successful issue lowers the stock by exactly its `qty`, each successful
return raises it by exactly its `qty`). -/
theorem stock_conservation (ops : List Op) (s s' : EngineState) (q0 : Int)
    (h0 : s.component.quantity = some q0) (h : runOps s ops = .ok s') :
    s'.component.quantity = some (q0 - sumIssued ops + sumReturned ops) := by
  induction ops generalizing s q0 with
  | nil =>
    simp only [runOps, Except.ok.injEq] at h
    subst h
    simpa [sumIssued, sumReturned] using h0
  | cons op rest ih =>
    rw [runOps] at h
    cases hap : applyOp s op with
    | error e => rw [hap] at h; exact absurd h (by simp)
    | ok p =>
      rw [hap] at h
      obtain ⟨s1, r⟩ := p
      have hst := applyOp_stock s op s1 r hap
      rw [h0] at hst
      have hrun := ih s1 (q0 - issuedQty op + returnedQty op) (by simpa [intOrZero] using hst) h
      rw [hrun]
      simp only [sumIssued, sumReturned, List.map_cons, List.sum_cons, Option.some.injEq]
      omega

/-- C1 witness: on the concrete three-call run, the final stock is
`20 - (10 + 5) + 4`. -/
theorem stock_conservation_witness :
    wFinal.component.quantity = some (20 - sumIssued wOps + sumReturned wOps) :=
  stock_conservation wOps wState wFinal 20 (by rfl) (by rfl)

/-- C2.  Pending-quantity invariant: the row written by any successful issue or
return satisfies `pending_qty = qty_issued - qty_returned`
(models.py lines 531-533, 597-598 and 664-665). -/
theorem pending_qty_invariant (s : EngineState) (op : Op) (s' : EngineState)
    (r : TransactionRow) (h : applyOp s op = .ok (s', r)) :
    r.pending_qty = r.qty_issued - r.qty_returned := by
  cases op with
  | issue lab campus person qty purpose notes =>
    simp only [applyOp, create_issue] at h
    split at h
    · exact absurd h (by simp)
    · split at h
      · simp only [Except.ok.injEq, Prod.mk.injEq] at h
        obtain ⟨-, hr⟩ := h
        subst hr
        rfl
      · simp only [Except.ok.injEq, Prod.mk.injEq] at h
        obtain ⟨-, hr⟩ := h
        subst hr
        simp only [intOrZero]
        omega
  | ret lab campus person qty purpose notes =>
    simp only [applyOp, add_return] at h
    split at h
    · exact absurd h (by simp)
    · split at h
      · exact absurd h (by simp)
      · split at h
        · exact absurd h (by simp)
        · simp only [Except.ok.injEq, Prod.mk.injEq] at h
          obtain ⟨-, hr⟩ := h
          subst hr
          rfl

/-- C2 witness: the concrete written row satisfies the pending invariant. -/
theorem pending_qty_invariant_witness :
    c2pair.2.pending_qty = c2pair.2.qty_issued - c2pair.2.qty_returned :=
  pending_qty_invariant wState c2op c2pair.1 c2pair.2 (by rfl)

/-- C3.  Return precondition chain, in source order (models.py lines 642-662):
no open entry gives `NoMatchingTransaction` whatever the other inputs are;
with an open entry, non-positive pending gives `NothingPending` whatever `qty`
is; with positive pending, `qty` above pending gives `ExceedsPending` carrying
the pending value.  Every failure is an `.error` result, which carries no new
state: the entry and the stock are untouched, as in the source, where the
`raise` happens before any SQL write. -/
theorem return_error_chain :
    (∀ s lab campus person qty purpose notes,
      find_open_transaction s lab (strOrNone campus) person purpose = none →
      add_return s lab campus person qty purpose notes = .error .noMatchingTransaction) ∧
    (∀ s lab campus person qty purpose notes e,
      find_open_transaction s lab (strOrNone campus) person purpose = some e →
      e.qty_issued - e.qty_returned ≤ 0 →
      add_return s lab campus person qty purpose notes = .error .nothingPending) ∧
    (∀ s lab campus person qty purpose notes e,
      find_open_transaction s lab (strOrNone campus) person purpose = some e →
      0 < e.qty_issued - e.qty_returned →
      e.qty_issued - e.qty_returned < qty →
      add_return s lab campus person qty purpose notes =
        .error (.exceedsPending (e.qty_issued - e.qty_returned))) := by
  refine ⟨?_, ?_, ?_⟩
  · intro s lab campus person qty purpose notes hf
    simp [add_return, hf]
  · intro s lab campus person qty purpose notes e hf hpend
    simp [add_return, hf, hpend]
  · intro s lab campus person qty purpose notes e hf hpend hover
    have h1 : ¬ (e.qty_issued - e.qty_returned ≤ 0) := by omega
    have h2 : qty > e.qty_issued - e.qty_returned := hover
    simp [add_return, hf, h1, h2]

/-- C3 witness: the three failure modes on concrete states. -/
theorem return_error_chain_witness :
    add_return wState none none "Zoe" 1 "nothing open" none = .error .noMatchingTransaction ∧
    add_return c3bState none none "Alice" 1 "project" none = .error .nothingPending ∧
    add_return c3cState none none "Alice" 8 "project" none = .error (.exceedsPending 7) :=
  ⟨return_error_chain.1 wState none none "Zoe" 1 "nothing open" none (by rfl),
   return_error_chain.2.1 c3bState none none "Alice" 1 "project" none c3bRow
     (by rfl) (by decide),
   return_error_chain.2.2 c3cState none none "Alice" 8 "project" none c3cRow
     (by rfl) (by decide) (by decide)⟩

/-- C4.  Over-issue rejected atomically: whenever the available stock is below
`qty`, `create_issue` fails with `InsufficientStock` reporting the available
quantity (models.py lines 514-520); the `.error` result carries no new state,
so neither the component quantity nor any ledger row changes. -/
theorem over_issue_rejected (s : EngineState) (lab : Option Int) (campus : Option String)
    (person : String) (qty : Int) (purpose : String) (notes : Option String)
    (h : intOrZero s.component.quantity < qty) :
    create_issue s lab campus person qty purpose notes =
      .error (.insufficientStock (intOrZero s.component.quantity)) := by
  simp only [create_issue]
  split
  · rfl
  next hq => exact absurd h hq

/-- C4 witness: quantity 5, issue of 6 fails with available 5. -/
theorem over_issue_rejected_witness :
    create_issue c4State none none "Eve" 6 "demo" none = .error (.insufficientStock 5) :=
  over_issue_rejected c4State none none "Eve" 6 "demo" none (by decide)

/-- C5 counterexample: `create_issue` applies no positivity check.  On a
component with stock 20, an issue of `-1` succeeds instead of failing with
`InvalidQuantity`, and the written stock is 21: the call both succeeds and
mutates state. -/
theorem invalid_qty_claim_counterexample :
    isSuccess (create_issue wState none none "Ann" (-1) "neg demo" none) = true ∧
    ((create_issue wState none none "Ann" (-1) "neg demo" none).toOption.map
      (fun p => p.1.component.quantity)) = some (some 21) ∧
    wState.component.quantity = some 20 :=
  ⟨rfl, rfl, rfl⟩

/-- C5 amended.  The engine itself never raises `InvalidQuantity`: an issue
call fails only with `InsufficientStock` (exactly when `qty` exceeds the
available stock), so any `qty` within stock — non-positive included — is
accepted, and a return failure is never `InvalidQuantity` either.  Positivity
of `qty` is validated by the web layer (app.py) before the engine is called. -/
theorem no_invalid_quantity_check :
    (∀ s lab campus person qty purpose notes,
      qty ≤ intOrZero s.component.quantity →
      isSuccess (create_issue s lab campus person qty purpose notes) = true) ∧
    (∀ s lab campus person qty purpose notes e,
      create_issue s lab campus person qty purpose notes = .error e →
      e = .insufficientStock (intOrZero s.component.quantity) ∧
        intOrZero s.component.quantity < qty) ∧
    (∀ s lab campus person qty purpose notes e,
      add_return s lab campus person qty purpose notes = .error e →
      e ≠ .invalidQuantity) := by
  refine ⟨?_, ?_, ?_⟩
  · intro s lab campus person qty purpose notes hle
    have hq : ¬ qty > intOrZero s.component.quantity := by omega
    simp only [create_issue, hq, if_false]
    split <;> rfl
  · intro s lab campus person qty purpose notes e h
    simp only [create_issue] at h
    split at h
    · simp only [Except.error.injEq] at h
      subst h
      next hq => exact ⟨rfl, hq⟩
    · split at h <;> exact absurd h (by simp)
  · intro s lab campus person qty purpose notes e h
    simp only [add_return] at h
    split at h
    · simp only [Except.error.injEq] at h
      subst h
      simp
    · split at h
      · simp only [Except.error.injEq] at h
        subst h
        simp
      · split at h
        · simp only [Except.error.injEq] at h
          subst h
          simp
        · exact absurd h (by simp)

/-- C5 amended witness: the concrete issue of `-2` against stock 20 succeeds. -/
theorem no_invalid_quantity_check_witness :
    isSuccess (create_issue wState none none "Neg" (-2) "w demo" none) = true :=
  no_invalid_quantity_check.1 wState none none "Neg" (-2) "w demo" none (by decide)

/-- C6 counterexample: a lookup supplying `campus = ""` DOES match the entry
whose campus is absent — the empty string is collapsed to absent before
matching (models.py line 471), contradicting the claim that it must not. -/
theorem empty_campus_matches_absent_counterexample :
    find_open_transaction c6State none (some "") "Alice" "project" = some c6Row ∧
    c6Row.campus = none :=
  ⟨rfl, rfl⟩

/-- C6 amended.  Context matching first normalises with Python truthiness — an
empty-string campus (and a falsy lab id) is identified with absent — and after
that normalisation absence compares equal only to absence: a lookup with
`campus = ""` behaves exactly like a lookup with campus absent, and any match
carries exactly the normalised campus and lab values. -/
theorem context_match_normalizes_empty :
    (∀ s lab person purpose,
      find_open_transaction s lab (some "") person purpose =
        find_open_transaction s lab none person purpose) ∧
    (∀ s lab campus person purpose t,
      find_open_transaction s lab campus person purpose = some t →
      t.campus = strOrNone campus ∧ t.lab_id = labOrNone lab) := by
  constructor
  · intro s lab person purpose
    rfl
  · intro s lab campus person purpose t h
    have hp := List.find?_some h
    simp only [matches_context, Bool.and_eq_true, Bool.or_eq_true, beq_iff_eq] at hp
    obtain ⟨⟨⟨⟨⟨hcid, hlab⟩, hcampus⟩, hperson⟩, hpurz⟩, hstatus⟩ := hp
    exact ⟨hcampus, hlab⟩

/-- C6 amended witness: on the concrete state, the empty-string lookup equals
the absent lookup, and the matched row carries the normalised (absent) campus. -/
theorem context_match_normalizes_empty_witness :
    find_open_transaction c6State none (some "") "Alice" "project" =
      find_open_transaction c6State none none "Alice" "project" ∧
    c6Row.campus = strOrNone (some "") :=
  ⟨context_match_normalizes_empty.1 c6State none "Alice" "project",
   (context_match_normalizes_empty.2 c6State none (some "") "Alice" "project" c6Row
      (by rfl)).1⟩

/-- C7.  Re-issue against a partially returned entry: when the open entry for
the context has `qty_returned > 0` (and, as for every entry the engine itself
produces, non-negative pending), a further issue of a positive `qty` within
stock raises `qty_issued` by `qty`, leaves `qty_returned` unchanged, sets
`pending_qty` to the new difference, keeps the status `Partially Returned`,
and updates that same row (models.py lines 530-570). -/
theorem reissue_partially_returned (s : EngineState) (lab : Option Int)
    (campus : Option String) (person : String) (qty : Int) (purpose : String)
    (notes : Option String) (e : TransactionRow)
    (hf : find_open_transaction s lab (strOrNone campus) person purpose = some e)
    (hret : 0 < e.qty_returned)
    (hpend : 0 ≤ e.qty_issued - e.qty_returned)
    (hq : 0 < qty)
    (hstock : qty ≤ intOrZero s.component.quantity) :
    ((create_issue s lab campus person qty purpose notes).toOption.map
        (fun p => (p.2.id, p.2.qty_issued, p.2.qty_returned, p.2.pending_qty, p.2.status))) =
      some (e.id, e.qty_issued + qty, e.qty_returned,
            e.qty_issued + qty - e.qty_returned, "Partially Returned") := by
  have hgt : ¬ qty > intOrZero s.component.quantity := by omega
  have hr0 : ¬ e.qty_returned = 0 := by omega
  have hp0 : ¬ e.qty_issued + qty - e.qty_returned ≤ 0 := by omega
  simp only [create_issue, hgt, if_false, hf, hr0, hp0, if_true, ite_false, ite_true]
  rfl

/-- C7 witness: issuing 5 more against the 10-issued / 4-returned entry yields
issued 15, returned 4, pending 11, status unchanged. -/
theorem reissue_partially_returned_witness :
    ((create_issue c7State (some 3) none "Alice" 5 "project" none).toOption.map
        (fun p => (p.2.id, p.2.qty_issued, p.2.qty_returned, p.2.pending_qty, p.2.status))) =
      some (4, 15, 4, 11, "Partially Returned") :=
  reissue_partially_returned c7State (some 3) none "Alice" 5 "project" none c7Row
    (by rfl) (by decide) (by decide) (by decide) (by decide)

/-- C8.  Notes semantics.  Issue against an existing open entry: the stored
notes are replaced by the caller's notes exactly when these are non-empty, and
written back unchanged otherwise (models.py line 567).  Return: when notes are
supplied, the line `"Return: <notes>"` is appended (on a new line) to the
existing notes text; otherwise the notes text is unchanged (models.py
lines 670-672). -/
theorem notes_semantics :
    (∀ s lab campus person qty purpose notes e s' r n,
      find_open_transaction s lab (strOrNone campus) person purpose = some e →
      create_issue s lab campus person qty purpose notes = .ok (s', r) →
      notes = some n → n ≠ "" → r.notes = some n) ∧
    (∀ s lab campus person qty purpose notes e s' r,
      find_open_transaction s lab (strOrNone campus) person purpose = some e →
      create_issue s lab campus person qty purpose notes = .ok (s', r) →
      (notes = none ∨ notes = some "") → r.notes = e.notes) ∧
    (∀ s lab campus person qty purpose notes e s' r n,
      find_open_transaction s lab (strOrNone campus) person purpose = some e →
      add_return s lab campus person qty purpose notes = .ok (s', r) →
      notes = some n → n ≠ "" →
      r.notes = some ((e.notes.getD "") ++ ("\nReturn: " ++ n))) ∧
    (∀ s lab campus person qty purpose notes e s' r,
      find_open_transaction s lab (strOrNone campus) person purpose = some e →
      add_return s lab campus person qty purpose notes = .ok (s', r) →
      (notes = none ∨ notes = some "") → r.notes.getD "" = e.notes.getD "") := by
  refine ⟨?_, ?_, ?_, ?_⟩
  · intro s lab campus person qty purpose notes e s' r n hf hok hn hne
    subst hn
    simp only [create_issue, hf] at hok
    split at hok
    · exact absurd hok (by simp)
    · simp only [Except.ok.injEq, Prod.mk.injEq] at hok
      obtain ⟨-, hr⟩ := hok
      subst hr
      simp [notesOrExisting, hne]
  · intro s lab campus person qty purpose notes e s' r hf hok hn
    simp only [create_issue, hf] at hok
    split at hok
    · exact absurd hok (by simp)
    · simp only [Except.ok.injEq, Prod.mk.injEq] at hok
      obtain ⟨-, hr⟩ := hok
      subst hr
      rcases hn with hn | hn <;> subst hn <;> simp [notesOrExisting]
  · intro s lab campus person qty purpose notes e s' r n hf hok hn hne
    subst hn
    simp only [add_return, hf] at hok
    split at hok
    · exact absurd hok (by simp)
    · split at hok
      · exact absurd hok (by simp)
      · simp only [Except.ok.injEq, Prod.mk.injEq] at hok
        obtain ⟨-, hr⟩ := hok
        subst hr
        simp [hne]
  · intro s lab campus person qty purpose notes e s' r hf hok hn
    simp only [add_return, hf] at hok
    split at hok
    · exact absurd hok (by simp)
    · split at hok
      · exact absurd hok (by simp)
      · simp only [Except.ok.injEq, Prod.mk.injEq] at hok
        obtain ⟨-, hr⟩ := hok
        subst hr
        rcases hn with hn | hn <;> subst hn <;> simp [String.append_empty]

/-- C8 witness: the issue replaces "orig" with the caller's notes; the return
appends the `Return:` line to "orig". -/
theorem notes_semantics_witness :
    c8IssuePair.2.notes = some "new note" ∧
    c8ReturnPair.2.notes = some ("orig" ++ ("\nReturn: " ++ "back")) :=
  ⟨notes_semantics.1 c8State none none "Ben" 2 "course" (some "new note") c8Row
      c8IssuePair.1 c8IssuePair.2 "new note" (by rfl) (by rfl) rfl (by decide),
   notes_semantics.2.2.1 c8State none none "Ben" 2 "course" (some "back") c8Row
      c8ReturnPair.1 c8ReturnPair.2 "back" (by rfl) (by rfl) rfl (by decide)⟩

/-- C9.  Audit snapshot consistency: the row written by any successful call
records `quantity_before` as the stock read at the start of the call,
`transaction_quantity` as the call's `qty`, `quantity_after` as before minus
`qty` for an issue and before plus `qty` for a return, and the component
quantity written by the same call equals that `quantity_after`
(models.py lines 514-522, 548-552, 560-565, 600-604, 637-638, 668, 682-686,
611-620, 706-715). -/
theorem audit_snapshot (s : EngineState) (op : Op) (s' : EngineState)
    (r : TransactionRow) (h : applyOp s op = .ok (s', r)) :
    r.quantity_before = intOrZero s.component.quantity ∧
    r.transaction_quantity = opQty op ∧
    r.quantity_after = r.quantity_before - issuedQty op + returnedQty op ∧
    s'.component.quantity = some r.quantity_after := by
  cases op with
  | issue lab campus person qty purpose notes =>
    simp only [applyOp, create_issue] at h
    split at h
    · exact absurd h (by simp)
    · split at h
      · simp only [Except.ok.injEq, Prod.mk.injEq] at h
        obtain ⟨hs, hr⟩ := h
        subst hs
        subst hr
        refine ⟨rfl, rfl, by simp [issuedQty, returnedQty], rfl⟩
      · simp only [Except.ok.injEq, Prod.mk.injEq] at h
        obtain ⟨hs, hr⟩ := h
        subst hs
        subst hr
        refine ⟨rfl, rfl, by simp [issuedQty, returnedQty], rfl⟩
  | ret lab campus person qty purpose notes =>
    simp only [applyOp, add_return] at h
    split at h
    · exact absurd h (by simp)
    · split at h
      · exact absurd h (by simp)
      · split at h
        · exact absurd h (by simp)
        · simp only [Except.ok.injEq, Prod.mk.injEq] at h
          obtain ⟨hs, hr⟩ := h
          subst hs
          subst hr
          refine ⟨rfl, rfl, by simp [issuedQty, returnedQty], rfl⟩

/-- C9 witness: the concrete return records before 20, qty 6, after 26, and
the written stock equals the recorded after value. -/
theorem audit_snapshot_witness :
    c9Pair.2.quantity_before = 20 ∧
    c9Pair.2.transaction_quantity = 6 ∧
    c9Pair.2.quantity_after = c9Pair.2.quantity_before - issuedQty c9Op + returnedQty c9Op ∧
    c9Pair.1.component.quantity = some c9Pair.2.quantity_after :=
  audit_snapshot c7State c9Op c9Pair.1 c9Pair.2 (by rfl)

/-- C10.  Stock-state classification: `stock_state` is "Out of Stock" exactly
when the quantity (missing or `None` read as 0) is at most 0, "Low Stock"
exactly when it is positive but at most the minimum stock level (same 0
default), and "In Stock" exactly otherwise; `status_label` always equals
`stock_state`, and the stored component fields are untouched
(models.py lines 354-376). -/
theorem stock_state_classification (c : ComponentRow) :
    ((enrich_with_status c).stock_state = "Out of Stock" ↔ intOrZero c.quantity ≤ 0) ∧
    ((enrich_with_status c).stock_state = "Low Stock" ↔
      (0 < intOrZero c.quantity ∧
        intOrZero c.quantity ≤ intOrZero c.min_stock_level)) ∧
    ((enrich_with_status c).stock_state = "In Stock" ↔
      (0 < intOrZero c.quantity ∧
        intOrZero c.min_stock_level < intOrZero c.quantity)) ∧
    (enrich_with_status c).status_label = (enrich_with_status c).stock_state ∧
    (enrich_with_status c).base = c := by
  by_cases h1 : intOrZero c.quantity ≤ 0
  · refine ⟨?_, ?_, ?_, ?_, ?_⟩ <;> simp [enrich_with_status, h1]
  · by_cases h2 : intOrZero c.quantity ≤ intOrZero c.min_stock_level
    · refine ⟨?_, ?_, ?_, ?_, ?_⟩ <;> simp [enrich_with_status, h1, h2]
      all_goals omega
    · refine ⟨?_, ?_, ?_, ?_, ?_⟩ <;> simp [enrich_with_status, h1, h2]
      all_goals omega

/-- C10 witness: on the concrete component, the label equals the state and the
stored fields are untouched. -/
theorem stock_state_classification_witness :
    (enrich_with_status c10Comp).status_label = (enrich_with_status c10Comp).stock_state ∧
    (enrich_with_status c10Comp).base = c10Comp :=
  ⟨(stock_state_classification c10Comp).2.2.2.1,
   (stock_state_classification c10Comp).2.2.2.2⟩
